import Mathlib

/-!
Verification of the geo-grab geotag extraction-and-export pipeline
(`src/geo_grab.py`) through a shallow embedding in Lean 4.

Modelling conventions:
* Python floats are modelled as rationals (`ℚ`); the claims under study are
  algebraic identities and structural facts, not rounding statements.
* A filesystem path is its list of `/`-separated components; an absolute
  path starts with the empty component (the POSIX split of `/a/b` is
  `["", "a", "b"]`).
* A Python `dict.get(key, default)` over the GPS IFD is modelled by a
  structure of `Option` fields together with `Option.getD`; the keys the
  program never reads are kept as a bag of extra tag ids so that dict
  emptiness is faithful.
* Text output is modelled as the list of `\n`-terminated physical lines the
  writers emit, in emission order; the file contents are their
  concatenation.
* The hemisphere argument of `dms_to_dd` is a character; on the domain
  `{N, S, E, W}` declared by the Python `Literal` type, the Python test
  `b in 'NE'` coincides with `b = 'N' ∨ b = 'E'`.
-/

namespace GeoGrab

/-- Filesystem path: list of components, absolute iff the first component is
the empty string (POSIX style). -/
abbrev FsPath := List String

/-- Rendering of a path as a string, components joined by `/`. -/
def FsPath.render (p : FsPath) : String := String.intercalate "/" p

/-- Embeds `pathlib.Path.name`: the final component. -/
def FsPath.name (p : FsPath) : String := p.getLastD ""

/-- Embeds `pathlib.Path.parent`: all but the final component. -/
def FsPath.parent (p : FsPath) : FsPath := p.dropLast

/-- Embeds `pathlib.Path.relative_to`: strips `base` when it is a prefix,
and fails (Python raises `ValueError`) otherwise. -/
def FsPath.relative_to (p base : FsPath) : Option FsPath :=
  if base <+: p then some (p.drop base.length) else none

/-- Embeds `pathlib.Path.resolve` (symlinks aside): an absolute path is
kept, a relative one is anchored at the current working directory. -/
def FsPath.resolve (cwd p : FsPath) : FsPath :=
  if p.head? = some "" then p else cwd ++ p

/-- Rendering of a rational for interpolation into output text (the
embedding's stand-in for Python float formatting). -/
def qstr (q : ℚ) : String := toString q

/-- Embeds `dms_to_dd` (src/geo_grab.py:68-89):
`dd = float(d) + float(m) / 60 + float(s) / 3600`, returned as is when the
bearing is in `'NE'` and negated (`-1 * dd`) otherwise. -/
def dms_to_dd (d m s : ℚ) (b : Char) : ℚ :=
  let dd : ℚ := d + m / 60 + s / 3600
  if b = 'N' ∨ b = 'E' then dd else -1 * dd

/-- Embeds the GPS IFD mapping `dict[int, Any]` restricted to the tags the
program reads, plus the ids of any other tags present (so that dict
emptiness is represented faithfully). -/
structure GPSInfo where
  GPSLatitude : Option (ℚ × ℚ × ℚ)
  GPSLatitudeRef : Option Char
  GPSLongitude : Option (ℚ × ℚ × ℚ)
  GPSLongitudeRef : Option Char
  GPSAltitude : Option ℚ
  extraTags : List Nat
  deriving DecidableEq

/-- Truthiness of the GPS IFD dict: empty iff no tag at all is present. -/
def GPSInfo.isEmpty (g : GPSInfo) : Bool :=
  g.GPSLatitude = none && g.GPSLatitudeRef = none && g.GPSLongitude = none
    && g.GPSLongitudeRef = none && g.GPSAltitude = none && g.extraTags = []

/-- Embeds `get_lat_lon_elev` (src/geo_grab.py:196-206): each tag is read
with `dict.get` and a default (`[0.0]*3`, `'N'`, `'E'`, `0`). -/
def get_lat_lon_elev (g : GPSInfo) : (ℚ × ℚ) × ℚ :=
  let latDms := g.GPSLatitude.getD (0, 0, 0)
  let lat := dms_to_dd latDms.1 latDms.2.1 latDms.2.2 (g.GPSLatitudeRef.getD 'N')
  let lonDms := g.GPSLongitude.getD (0, 0, 0)
  let lon := dms_to_dd lonDms.1 lonDms.2.1 lonDms.2.2 (g.GPSLongitudeRef.getD 'E')
  let elev := g.GPSAltitude.getD 0
  ((lat, lon), elev)

/-- Claim C1: on the declared bearing domain, `dms_to_dd` returns
`d + m/60 + s/3600` for `'N'` and `'E'` and its negation for `'S'` and
`'W'`, for all non-negative magnitudes. -/
theorem C1_dms_to_dd (d m s : ℚ) (hd : 0 ≤ d) (hm : 0 ≤ m) (hs : 0 ≤ s) :
    dms_to_dd d m s 'N' = d + m / 60 + s / 3600 ∧
    dms_to_dd d m s 'E' = d + m / 60 + s / 3600 ∧
    dms_to_dd d m s 'S' = -(d + m / 60 + s / 3600) ∧
    dms_to_dd d m s 'W' = -(d + m / 60 + s / 3600) := by
  refine ⟨?_, ?_, ?_, ?_⟩ <;> simp [dms_to_dd]

/-- Witness for C1 at `d = 95, m = 12, s = 100` (the docstring example). -/
theorem C1_dms_to_dd_witness :
    dms_to_dd 95 12 100 'E' = 95 + 12 / 60 + 100 / 3600 :=
  (C1_dms_to_dd 95 12 100 (by norm_num) (by norm_num) (by norm_num)).2.1

/-- Claim C2: `get_lat_lon_elev` never fails on a partial mapping; a missing
tag behaves exactly as if the default were present: zero DMS magnitudes for
latitude/longitude, `'N'`/`'E'` hemispheres, elevation `0`. -/
theorem C2_get_lat_lon_elev_defaults (g : GPSInfo) :
    (g.GPSLatitude = none →
      get_lat_lon_elev g = get_lat_lon_elev { g with GPSLatitude := some (0, 0, 0) }) ∧
    (g.GPSLatitudeRef = none →
      get_lat_lon_elev g = get_lat_lon_elev { g with GPSLatitudeRef := some 'N' }) ∧
    (g.GPSLongitude = none →
      get_lat_lon_elev g = get_lat_lon_elev { g with GPSLongitude := some (0, 0, 0) }) ∧
    (g.GPSLongitudeRef = none →
      get_lat_lon_elev g = get_lat_lon_elev { g with GPSLongitudeRef := some 'E' }) ∧
    (g.GPSAltitude = none →
      get_lat_lon_elev g = get_lat_lon_elev { g with GPSAltitude := some 0 }) := by
  refine ⟨?_, ?_, ?_, ?_, ?_⟩ <;> intro h <;> simp [get_lat_lon_elev, h]

/-- Witness for C2 at the wholly-empty mapping: the missing latitude tag is
read as the zero triple. -/
theorem C2_get_lat_lon_elev_defaults_witness :
    get_lat_lon_elev ⟨none, none, none, none, none, []⟩ =
      get_lat_lon_elev ⟨some (0, 0, 0), none, none, none, none, []⟩ :=
  (C2_get_lat_lon_elev_defaults ⟨none, none, none, none, none, []⟩).1 rfl

/-- Embeds an input image as the EXIF reader sees it: its path, the GPS IFD
block (possibly empty) and the optional `Base.DateTime` EXIF field. -/
structure Image where
  path : FsPath
  gpsIfd : GPSInfo
  dateTime : Option String
  deriving DecidableEq

/-- Embeds the nonempty dict `gps_info | time_info` returned by
`get_geo_exif`: the GPS tags merged with the `DateTime` entry (whose value
may be Python `None`). -/
structure GeoInfo where
  gps : GPSInfo
  dateTime : Option String
  deriving DecidableEq

/-- Embeds `get_geo_exif` (src/geo_grab.py:225-229) combined with the
`or None` of `get_info`: an empty GPS IFD yields no mapping, a nonempty one
yields the merged (hence truthy) mapping. -/
def get_geo_exif (img : Image) : Option GeoInfo :=
  if img.gpsIfd.isEmpty then none else some ⟨img.gpsIfd, img.dateTime⟩

/-- Embeds `get_info` (src/geo_grab.py:232-234): each discovered image
paired with its optional geo mapping. -/
def get_info (imgs : List Image) : List (Image × Option GeoInfo) :=
  imgs.map fun img => (img, get_geo_exif img)

/-- Embeds Python `str` applied to an optional string: `str(None)` is the
four-character literal `"None"`. -/
def pyStr : Option String → String
  | none => "None"
  | some s => s

/-- Point record appended to `_files` by `main` (src/geo_grab.py:258):
`(img, (lat, lon), elev, str(geo_info[Base.DateTime]))`. -/
structure PointRecord where
  path : FsPath
  lat : ℚ
  lon : ℚ
  elev : ℚ
  timestamp : String
  deriving DecidableEq

/-- Record built by the loop body of `main` for one truthy geo mapping. -/
def mkRecord (img : Image) (gi : GeoInfo) : PointRecord :=
  let lle := get_lat_lon_elev gi.gps
  ⟨img.path, lle.1.1, lle.1.2, lle.2, pyStr gi.dateTime⟩

/-- Embeds the record-collection loop of `main` (src/geo_grab.py:254-258):
falsy geo mappings are skipped (`continue`), the rest are appended in
traversal order. -/
def buildRecords (imgs : List Image) : List PointRecord :=
  (get_info imgs).filterMap fun p =>
    match p.2 with
    | none => none
    | some gi => some (mkRecord p.1 gi)

/-- Option-valued map over a list, failing as soon as one element fails
(the embedding of a loop whose body may raise). -/
def mapOption (f : α → Option β) : List α → Option (List β)
  | [] => some []
  | a :: as =>
    match f a, mapOption f as with
    | some b, some bs => some (b :: bs)
    | _, _ => none

/-- Lines of the `KML_HEADER` constant (src/geo_grab.py:42-50). -/
def kmlHeaderLines : List String :=
  [ "<?xml version=\"1.0\" encoding=\"UTF-8\"?>",
    "<kml xmlns=\"http://www.opengis.net/kml/2.2\" xmlns:gx=\"http://www.google.com/kml/ext/2.2\" xmlns:kml=\"http://www.opengis.net/kml/2.2\">",
    "<Document>" ]

/-- Lines of the `KML_FOOTER` constant (src/geo_grab.py:51-54). -/
def kmlFooterLines : List String := ["</Document>", "</kml>"]

/-- Lines of the CDATA description element for one placemark. -/
def descriptionLines (relS : String) : List String :=
  [ "\t\t<description>",
    "\t\t\t<![CDATA[<img style=\"max-width:500px;\" src=\"" ++ relS ++ "\">]]>",
    "\t\t</description>" ]

/-- The timestamp element lines; the `<when>` body is the record's
timestamp string, verbatim. -/
def whenLines (ts : String) : List String :=
  [ "\t\t<TimeStamp>",
    "\t\t\t<when>" ++ ts ++ "</when>",
    "\t\t</TimeStamp>" ]

/-- The `<Point>` element lines: `clampToGround` altitude mode and the
`lon,lat,elev` coordinate triple. -/
def pointLines (lonS latS elevS : String) : List String :=
  [ "\t\t<Point>",
    "\t\t\t<gx:altitudeMode>clampToGround</gx:altitudeMode>",
    "\t\t\t<coordinates>" ++ lonS ++ "," ++ latS ++ "," ++ elevS ++ "</coordinates>",
    "\t\t</Point>" ]

/-- Embeds one iteration of the `write_kml` loop (src/geo_grab.py:103-145):
the lines written for one record, failing when
`img_path.relative_to(out_file.parent)` raises. -/
def placemarkLines (outParent : FsPath) (r : PointRecord) : Option (List String) :=
  (r.path.relative_to outParent).map fun rel =>
    let relS := rel.render
    let nm := r.path.name
    ("\t<Placemark id=\"img_" ++ nm ++ "\">")
      :: ("\t\t<name>" ++ nm ++ "</name>")
      :: (descriptionLines relS
        ++ whenLines r.timestamp
        ++ [ "\t\t<Style>",
             "\t\t\t<IconStyle>",
             "\t\t\t\t<scale>2.5</scale>",
             "\t\t\t\t<Icon>",
             "\t\t\t\t\t<href>" ++ relS ++ "</href>",
             "\t\t\t\t</Icon>",
             "\t\t\t</IconStyle>",
             "\t\t</Style>" ]
        ++ pointLines (qstr r.lon) (qstr r.lat) (qstr r.elev)
        ++ ["\t</Placemark>"])

/-- Embeds `write_kml` (src/geo_grab.py:98-146) as the list of physical
lines of the emitted document, in emission order. -/
def kmlLines (outFile : FsPath) (info : List PointRecord) : Option (List String) :=
  (mapOption (placemarkLines outFile.parent) info).map fun blocks =>
    kmlHeaderLines
      ++ [("\t<name>" ++ outFile.name ++ "</name>")]
      ++ blocks.flatten
      ++ kmlFooterLines

/-- Embeds `write_kml`'s file contents: the lines joined with `\n`. -/
def write_kml (outFile : FsPath) (info : List PointRecord) : Option String :=
  (kmlLines outFile info).map fun ls => String.join (ls.map (· ++ "\n"))

/-- JSON values, as produced by the `json` module from the dict literal in
`write_geojson`. -/
inductive Json where
  | null : Json
  | bool : Bool → Json
  | num : ℚ → Json
  | str : String → Json
  | arr : List Json → Json
  | obj : List (String × Json) → Json

/-- Lookup of a key in a JSON object. -/
def Json.lookup (j : Json) (k : String) : Option Json :=
  match j with
  | .obj kvs => lookupList kvs k
  | _ => none
where
  lookupList : List (String × Json) → String → Option Json
    | [], _ => none
    | (k0, v) :: rest, k => if k0 = k then some v else lookupList rest k

/-- The `Feature` dict built for one record by the comprehension in
`write_geojson` (src/geo_grab.py:171-181): `Point` geometry with
`[lon, lat, elev]` coordinates, properties `timestamp` and
`filepath = str(img)`. -/
def featureJson (r : PointRecord) : Json :=
  .obj [
    ("type", .str "Feature"),
    ("geometry", .obj [
      ("type", .str "Point"),
      ("coordinates", .arr [.num r.lon, .num r.lat, .num r.elev])]),
    ("properties", .obj [
      ("timestamp", .str r.timestamp),
      ("filepath", .str r.path.render)])]

/-- Embeds `write_geojson` (src/geo_grab.py:167-186) at the JSON-value
level: the dict passed to `json.dump`. `json.dump` followed by
`json.loads` is the identity on this value (standard-library collaborator),
so round-trip claims are settled on it. -/
def write_geojson (info : List PointRecord) : Json :=
  .obj [
    ("type", .str "FeatureCollection"),
    ("features", .arr (info.map featureJson))]

/-- The comma-join of the f-string in `write_csv`
(`f'{a},{b},...'` is literally the fields interleaved with commas). -/
def commaJoin : List String → String
  | [] => ""
  | [f] => f
  | f :: fs => f ++ "," ++ commaJoin fs

/-- The six interpolated fields of one CSV data row
(src/geo_grab.py:193): name, lat, lon, elev, timestamp, resolved path. -/
def rowFields (cwd : FsPath) (r : PointRecord) : List String :=
  [r.path.name, qstr r.lat, qstr r.lon, qstr r.elev, r.timestamp,
   (FsPath.resolve cwd r.path).render]

/-- One CSV data row. -/
def csvRow (cwd : FsPath) (r : PointRecord) : String :=
  commaJoin (rowFields cwd r)

/-- The CSV header line (src/geo_grab.py:191). -/
def csvHeader : String := "Name,Latitude,Longitude,Elevation,Timestamp,Filepath"

/-- Embeds `write_csv` (src/geo_grab.py:189-193) as the list of physical
lines emitted: header then one row per record. -/
def csvLines (cwd : FsPath) (info : List PointRecord) : List String :=
  csvHeader :: info.map (csvRow cwd)

/-- Splitting a character list at a separator, the semantics of splitting a
CSV line at commas (`splitChar c [] = [[]]`, as for string splitting). -/
def splitChar (c : Char) : List Char → List (List Char)
  | [] => [[]]
  | x :: xs =>
    if x = c then [] :: splitChar c xs
    else
      match splitChar c xs with
      | [] => [[x]]
      | y :: ys => (x :: y) :: ys

/-- Names of the entries of the archive built by `write_kmz`
(src/geo_grab.py:149-164): the staged KML plus the contents of the staged
`files` directory. Staging copies each image to `files/<name>` with
`shutil.copyfile`, so a repeated name overwrites and one file per distinct
name remains; `iterdir` order is OS-dependent, `dedup` fixes one order. -/
def write_kmz_entries (outStem : String) (info : List PointRecord) : List String :=
  (outStem ++ ".kml") :: (info.map fun r => r.path.name).dedup

/-- Effects of one `write_kmz` run, for the resource-safety claim. -/
inductive KmzAct where
  | copy : FsPath → KmzAct
  | writeKmlAct : KmzAct
  | openZip : KmzAct
  | addEntry : String → KmzAct
  | closeZip : KmzAct
  | rmTmp : KmzAct
  deriving DecidableEq

/-- The straight-line body of the `with TemporaryDirectory()` block of
`write_kmz`: copy every image, write the staged KML, only then open the
destination archive, add the entries, close it. -/
def kmzBody (outStem : String) (info : List PointRecord) : List KmzAct :=
  (info.map fun r => KmzAct.copy r.path)
    ++ [KmzAct.writeKmlAct, KmzAct.openZip]
    ++ (write_kmz_entries outStem info).map KmzAct.addEntry
    ++ [KmzAct.closeZip]

/-- Runs a body, aborting at the first failing copy (the embedding of an
exception raised by `shutil.copyfile`): the actions actually performed. -/
def runUntilFail (fail : FsPath → Bool) : List KmzAct → List KmzAct
  | [] => []
  | KmzAct.copy p :: rest =>
    if fail p then [] else KmzAct.copy p :: runUntilFail fail rest
  | a :: rest => a :: runUntilFail fail rest

/-- Embeds one `write_kmz` call as its performed-action trace: the
`with tempfile.TemporaryDirectory()` context manager removes the staging
directory on every exit path, so `rmTmp` follows the (possibly aborted)
body unconditionally. -/
def write_kmz_trace (outStem : String) (info : List PointRecord)
    (fail : FsPath → Bool) : List KmzAct :=
  runUntilFail fail (kmzBody outStem info) ++ [KmzAct.rmTmp]

/-- The recognized service names, `Services` (src/geo_grab.py:35-36). -/
def ServicesL : List String := ["google", "osm", "apple", "bing"]

/-- Embeds `format_url` (src/geo_grab.py:209-218): a `match` with a case
per recognized service and no default, so an unmatched service falls
through and the function returns Python `None`. -/
def format_url (lat lon : ℚ) (service : String) : Option String :=
  let latS := qstr lat
  let lonS := qstr lon
  match service with
  | "google" => some ("https://www.google.com/maps/search/?api=1&query=" ++ latS ++ "," ++ lonS)
  | "osm" => some ("https://www.openstreetmap.org/search?query=" ++ latS ++ "%2F" ++ lonS ++ "#map=13/" ++ latS ++ "/" ++ lonS)
  | "apple" => some ("https://maps.apple.com/frame?center=" ++ latS ++ "%252C" ++ lonS)
  | "bing" => some ("https://www.bing.com/maps/search?style=r&q=" ++ latS ++ "%2C+" ++ lonS ++ "&lvl=16&style=r")
  | _ => none

/-- Embeds the url dict comprehension of `main` (src/geo_grab.py:261):
`{s: format_url(lat, lon, s) for s in services if s in Services}` (the dict
keys' repetition-collapsing is irrelevant: equal keys map to equal
values). -/
def mainUrls (lat lon : ℚ) (services : List String) : List (String × Option String) :=
  (services.filter fun s => ServicesL.contains s).map fun s => (s, format_url lat lon s)

/-- Predicate for a physical line that opens a `<Placemark>` element. -/
def isPlacemarkOpen (l : String) : Bool := decide ("\t<Placemark".data <+: l.data)

/-- Concrete sample record used by witnesses. -/
def recW : PointRecord := ⟨["", "d", "a.jpg"], 48, 2, 35, "2021:01:01 10:00:00"⟩

/-- Concrete sample record whose image name contains a comma. -/
def rComma : PointRecord := ⟨["", "d", "a,b.jpg"], 1, 2, 3, "ts"⟩

/-- Concrete sample image whose EXIF has no GPS block. -/
def imgEmptyGps : Image := ⟨["", "d", "b.jpg"], ⟨none, none, none, none, none, []⟩, some "t"⟩

/-- Concrete sample image with GPS data but no EXIF DateTime field. -/
def imgNoDate : Image :=
  ⟨["", "d", "c.jpg"], ⟨some (1, 2, 3), some 'N', some (4, 5, 6), some 'E', some 7, []⟩, none⟩

lemma get_geo_exif_empty {img : Image} (h : img.gpsIfd.isEmpty = true) :
    get_geo_exif img = none := by
  simp [get_geo_exif, h]

/-- Claim C3: an image whose EXIF reader result is the empty mapping
contributes no point record, hence nothing to any exported file. -/
theorem C3_no_gps_no_record (pre post : List Image) (img : Image)
    (h : img.gpsIfd.isEmpty = true) :
    buildRecords (pre ++ img :: post) = buildRecords (pre ++ post) ∧
    (∀ out, kmlLines out (buildRecords (pre ++ img :: post))
      = kmlLines out (buildRecords (pre ++ post))) ∧
    write_geojson (buildRecords (pre ++ img :: post))
      = write_geojson (buildRecords (pre ++ post)) ∧
    (∀ cwd, csvLines cwd (buildRecords (pre ++ img :: post))
      = csvLines cwd (buildRecords (pre ++ post))) ∧
    (∀ stem, write_kmz_entries stem (buildRecords (pre ++ img :: post))
      = write_kmz_entries stem (buildRecords (pre ++ post))) := by
  have hrec : buildRecords (pre ++ img :: post) = buildRecords (pre ++ post) := by
    simp [buildRecords, get_info, get_geo_exif_empty h]
  exact ⟨hrec, fun _ => by rw [hrec], by rw [hrec], fun _ => by rw [hrec],
    fun _ => by rw [hrec]⟩

/-- Witness for C3: a GPS-less image alone yields the empty record list. -/
theorem C3_no_gps_no_record_witness :
    buildRecords ([] ++ imgEmptyGps :: []) = buildRecords ([] ++ []) :=
  (C3_no_gps_no_record [] [] imgEmptyGps rfl).1

/-- Claim C9: the orchestrator filters service names against the recognized
list before calling `format_url`, so every produced url is defined; on the
four recognized services `format_url` returns the fixed templates with
latitude and longitude substituted. -/
theorem C9_service_filter (lat lon : ℚ) (services : List String) :
    (∀ p ∈ mainUrls lat lon services,
      p.1 ∈ ServicesL ∧ (format_url lat lon p.1).isSome = true ∧
        p.2 = format_url lat lon p.1) ∧
    format_url lat lon "google"
      = some ("https://www.google.com/maps/search/?api=1&query="
          ++ qstr lat ++ "," ++ qstr lon) ∧
    format_url lat lon "osm"
      = some ("https://www.openstreetmap.org/search?query=" ++ qstr lat
          ++ "%2F" ++ qstr lon ++ "#map=13/" ++ qstr lat ++ "/" ++ qstr lon) ∧
    format_url lat lon "apple"
      = some ("https://maps.apple.com/frame?center=" ++ qstr lat
          ++ "%252C" ++ qstr lon) ∧
    format_url lat lon "bing"
      = some ("https://www.bing.com/maps/search?style=r&q=" ++ qstr lat
          ++ "%2C+" ++ qstr lon ++ "&lvl=16&style=r") := by
  refine ⟨?_, rfl, rfl, rfl, rfl⟩
  intro p hp
  simp only [mainUrls, List.mem_map, List.mem_filter] at hp
  obtain ⟨s, ⟨-, hs⟩, rfl⟩ := hp
  have hmem : s ∈ ServicesL := by
    simpa [ServicesL, List.contains_iff_exists_mem_beq] using hs
  refine ⟨hmem, ?_, rfl⟩
  simp only [ServicesL, List.mem_cons, List.mem_singleton] at hmem
  rcases hmem with rfl | rfl | rfl | rfl | h
  · rfl
  · rfl
  · rfl
  · rfl
  · cases h

/-- Witness for C9 at a concrete filtered service list containing an
unrecognized name. -/
theorem C9_service_filter_witness :
    ("google", format_url 1 2 "google") ∈ mainUrls 1 2 ["google", "mapquest"] ∧
    (format_url 1 2 "google").isSome = true := by
  have hmem : ("google", format_url 1 2 "google") ∈ mainUrls 1 2 ["google", "mapquest"] := by
    simp [mainUrls, ServicesL]
  exact ⟨hmem, ((C9_service_filter 1 2 ["google", "mapquest"]).1 _ hmem).2.1⟩

/-- Claim C5: the JSON value written by `write_geojson` (and read back
unchanged by a JSON parser) is a `FeatureCollection` with one `Point`
`Feature` per record, coordinates `[lon, lat, elev]`, and properties
carrying the timestamp and the string form of the source path. -/
theorem C5_geojson_roundtrip (info : List PointRecord) :
    (write_geojson info).lookup "type" = some (.str "FeatureCollection") ∧
    ∃ feats : List Json, (write_geojson info).lookup "features" = some (.arr feats) ∧
      feats.length = info.length ∧
      ∀ (i : Nat) (r : PointRecord), info[i]? = some r →
        ∃ f : Json, feats[i]? = some f ∧
          f.lookup "type" = some (.str "Feature") ∧
          (∃ g : Json, f.lookup "geometry" = some g ∧
            g.lookup "type" = some (.str "Point") ∧
            g.lookup "coordinates" = some (.arr [.num r.lon, .num r.lat, .num r.elev])) ∧
          (∃ pr : Json, f.lookup "properties" = some pr ∧
            pr.lookup "timestamp" = some (.str r.timestamp) ∧
            pr.lookup "filepath" = some (.str r.path.render)) := by
  refine ⟨rfl, info.map featureJson, rfl, by simp, ?_⟩
  intro i r hir
  refine ⟨featureJson r, ?_, rfl, ⟨_, rfl, rfl, rfl⟩, ⟨_, rfl, rfl, rfl⟩⟩
  simp [hir]

/-- Witness for C5 at a one-record list. -/
theorem C5_geojson_roundtrip_witness :
    ∃ feats : List Json, (write_geojson [recW]).lookup "features" = some (.arr feats) ∧
      ∃ f : Json, feats[0]? = some f ∧
        ∃ g : Json, f.lookup "geometry" = some g ∧
          g.lookup "coordinates"
            = some (.arr [.num recW.lon, .num recW.lat, .num recW.elev]) := by
  obtain ⟨-, feats, h1, -, h3⟩ := C5_geojson_roundtrip [recW]
  obtain ⟨f, hf, -, ⟨g, hg, -, hc⟩, -⟩ := h3 0 recW rfl
  exact ⟨feats, h1, f, hf, g, hg, hc⟩

/-- Counterexample to C6 as stated: a record list that references the same
image twice produces an archive with 2 entries, not `record_count + 1 = 3`;
`shutil.copyfile` into the staging directory overwrites same-named files,
so only distinct image names survive. -/
theorem C6_kmz_counterexample :
    (write_kmz_entries "out" [rComma, rComma]).length ≠ [rComma, rComma].length + 1 := by
  decide

/-- Claim C6 (amended): the archive contains exactly one KML entry plus one
entry per distinct image name referenced by the records — hence exactly
`record_count + 1` entries whenever the referenced image names are all
distinct. -/
theorem C6_kmz_entries (outStem : String) (info : List PointRecord) :
    (write_kmz_entries outStem info).length
      = ((info.map fun r => r.path.name).dedup).length + 1 ∧
    (write_kmz_entries outStem info).head? = some (outStem ++ ".kml") ∧
    (∀ n, n ∈ (write_kmz_entries outStem info).tail
      ↔ n ∈ info.map fun r => r.path.name) ∧
    ((info.map fun r => r.path.name).Nodup →
      (write_kmz_entries outStem info).length = info.length + 1) := by
  refine ⟨rfl, rfl, ?_, ?_⟩
  · intro n
    simp [write_kmz_entries, List.mem_dedup]
  · intro hnd
    simp [write_kmz_entries, List.dedup_eq_self.mpr hnd]

/-- Witness for C6 (amended) at a duplicate-free record list. -/
theorem C6_kmz_entries_witness :
    (write_kmz_entries "out" [recW, rComma]).length = [recW, rComma].length + 1 :=
  (C6_kmz_entries "out" [recW, rComma]).2.2.2 (by decide)

lemma runUntilFail_copies (fail : FsPath → Bool) :
    ∀ (ps : List FsPath) (rest : List KmzAct), (∃ p ∈ ps, fail p = true) →
      runUntilFail fail (ps.map KmzAct.copy ++ rest)
        = (ps.takeWhile fun p => !fail p).map KmzAct.copy := by
  intro ps
  induction ps with
  | nil => rintro rest ⟨p, hp, -⟩; cases hp
  | cons p ps ih =>
    rintro rest ⟨q, hq, hfq⟩
    by_cases hp : fail p = true
    · simp [runUntilFail, hp, List.takeWhile_cons]
    · have hq' : q ∈ ps := by
        rcases List.mem_cons.mp hq with rfl | h
        · exact absurd hfq hp
        · exact h
      simp only [List.map_cons, List.cons_append, runUntilFail, hp, if_false,
        List.takeWhile_cons]
      simp only [Bool.not_eq_true] at hp
      simp [hp, ih rest ⟨q, hq', hfq⟩]

/-- Claim C7: the staging directory is removed on every exit path of
`write_kmz`, and a failing image copy aborts the run before the destination
archive is ever opened. -/
theorem C7_kmz_cleanup (outStem : String) (info : List PointRecord)
    (fail : FsPath → Bool) :
    KmzAct.rmTmp ∈ write_kmz_trace outStem info fail ∧
    ((∃ r ∈ info, fail r.path = true) →
      KmzAct.openZip ∉ write_kmz_trace outStem info fail) := by
  constructor
  · simp [write_kmz_trace]
  · rintro ⟨r, hr, hfr⟩ hmem
    have hx : ∃ p ∈ info.map fun r => r.path, fail p = true :=
      ⟨r.path, List.mem_map.mpr ⟨r, hr, rfl⟩, hfr⟩
    have hbody : kmzBody outStem info
        = (info.map fun r => r.path).map KmzAct.copy
          ++ ([KmzAct.writeKmlAct, KmzAct.openZip]
            ++ (write_kmz_entries outStem info).map KmzAct.addEntry
            ++ [KmzAct.closeZip]) := by
      simp [kmzBody, List.map_map, Function.comp]
    rw [write_kmz_trace, hbody, runUntilFail_copies fail _ _ hx] at hmem
    rcases List.mem_append.mp hmem with h | h
    · rcases List.mem_map.mp h with ⟨p, -, hp⟩
      cases hp
    · simp at h

/-- Witness for C7: with every copy failing, the staging directory is still
removed and the archive is never opened. -/
theorem C7_kmz_cleanup_witness :
    KmzAct.rmTmp ∈ write_kmz_trace "out" [recW] (fun _ => true) ∧
    KmzAct.openZip ∉ write_kmz_trace "out" [recW] (fun _ => true) :=
  ⟨(C7_kmz_cleanup "out" [recW] (fun _ => true)).1,
   (C7_kmz_cleanup "out" [recW] (fun _ => true)).2
     ⟨recW, List.mem_singleton.mpr rfl, rfl⟩⟩

lemma data_append (s t : String) : (s ++ t).data = s.data ++ t.data := rfl

lemma splitChar_not_mem (c : Char) : ∀ (l : List Char), c ∉ l → splitChar c l = [l] := by
  intro l
  induction l with
  | nil => intro _; rfl
  | cons x xs ih =>
    intro h
    have hx : ¬ x = c := by rintro rfl; exact h (List.mem_cons_self _ _)
    have hxs : c ∉ xs := fun hm => h (List.mem_cons_of_mem _ hm)
    simp [splitChar, hx, ih hxs]

lemma splitChar_append_cons (c : Char) : ∀ (a rest : List Char), c ∉ a →
    splitChar c (a ++ c :: rest) = a :: splitChar c rest := by
  intro a
  induction a with
  | nil => intro rest _; simp [splitChar]
  | cons x a ih =>
    intro rest h
    have hx : ¬ x = c := by rintro rfl; exact h (List.mem_cons_self _ _)
    have ha : c ∉ a := fun hm => h (List.mem_cons_of_mem _ hm)
    simp [splitChar, hx, ih rest ha]

lemma splitChar_commaJoin : ∀ (fs : List String), fs ≠ [] →
    (∀ f ∈ fs, ',' ∉ f.data) →
    splitChar ',' (commaJoin fs).data = fs.map String.data := by
  intro fs
  induction fs with
  | nil => intro h; exact absurd rfl h
  | cons f gs ih =>
    intro _ hf
    cases gs with
    | nil =>
      simp [commaJoin, splitChar_not_mem ',' f.data (hf f (List.mem_singleton.mpr rfl))]
    | cons g gs =>
      have hd : (f ++ "," ++ commaJoin (g :: gs)).data
          = f.data ++ ',' :: (commaJoin (g :: gs)).data := by
        have hc : ("," : String).data = [','] := rfl
        simp [data_append, hc]
      have hrest : splitChar ',' (commaJoin (g :: gs)).data
          = (g :: gs).map String.data :=
        ih (List.cons_ne_nil g gs) fun x hx => hf x (List.mem_cons_of_mem f hx)
      calc splitChar ',' (commaJoin (f :: g :: gs)).data
          = splitChar ',' (f.data ++ ',' :: (commaJoin (g :: gs)).data) := by
            rw [show commaJoin (f :: g :: gs) = f ++ "," ++ commaJoin (g :: gs) from rfl, hd]
        _ = f.data :: splitChar ',' (commaJoin (g :: gs)).data :=
            splitChar_append_cons ',' f.data _ (hf f (List.mem_cons_self f _))
        _ = (f :: g :: gs).map String.data := by simp [hrest]

/-- Counterexample to C8 as stated: `write_csv` performs no quoting, so for
an image named `a,b.jpg` the data row's first five comma-separated fields
are not the name/lat/lon/elev/timestamp quintuple. -/
theorem C8_csv_counterexample :
    (splitChar ',' (csvRow [""] rComma).data).take 5 ≠
      [rComma.path.name.data, (qstr rComma.lat).data, (qstr rComma.lon).data,
       (qstr rComma.elev).data, rComma.timestamp.data] := by
  decide

/-- Claim C8 (amended): `write_csv` emits the fixed header line plus one
data row per record, `record_count + 1` lines in all; for any record none
of whose six rendered fields contains a comma, splitting its row at commas
yields exactly name, latitude, longitude, elevation, timestamp and the
resolved absolute path, in that order. -/
theorem C8_write_csv (cwd : FsPath) (info : List PointRecord) :
    (csvLines cwd info).length = info.length + 1 ∧
    (csvLines cwd info).head? = some csvHeader ∧
    (csvLines cwd info).tail = info.map (csvRow cwd) ∧
    ∀ r ∈ info,
      csvRow cwd r ∈ (csvLines cwd info).tail ∧
      ((∀ f ∈ rowFields cwd r, ',' ∉ f.data) →
        splitChar ',' (csvRow cwd r).data
          = [r.path.name.data, (qstr r.lat).data, (qstr r.lon).data,
             (qstr r.elev).data, r.timestamp.data,
             ((FsPath.resolve cwd r.path).render).data]) := by
  refine ⟨by simp [csvLines], rfl, rfl, ?_⟩
  intro r hr
  constructor
  · simp only [csvLines, List.tail_cons]
    exact List.mem_map.mpr ⟨r, hr, rfl⟩
  · intro hcf
    have := splitChar_commaJoin (rowFields cwd r) (by simp [rowFields]) hcf
    simpa [rowFields] using this

/-- Witness for C8 (amended) at a comma-free record. -/
theorem C8_write_csv_witness :
    splitChar ',' (csvRow ["", "w"] recW).data
      = [recW.path.name.data, (qstr recW.lat).data, (qstr recW.lon).data,
         (qstr recW.elev).data, recW.timestamp.data,
         ((FsPath.resolve ["", "w"] recW.path).render).data] :=
  ((C8_write_csv ["", "w"] [recW]).2.2.2 recW (List.mem_singleton.mpr rfl)).2
    (by decide)

lemma prefix_getElem_eq {p l : List Char} (h : p <+: l) {i : Nat} (hi : i < p.length) :
    l[i]? = p[i]? := by
  obtain ⟨t, rfl⟩ := h
  exact List.getElem?_append_left hi

lemma not_prefix_of_getElem_ne (p a b : List Char) (i : Nat)
    (h1 : i < a.length) (h2 : i < p.length) (h3 : ¬ a[i]? = p[i]?) :
    ¬ p <+: a ++ b := by
  intro h
  have h4 : (a ++ b)[i]? = p[i]? := prefix_getElem_eq h h2
  rw [List.getElem?_append_left h1] at h4
  exact h3 h4

lemma ipo_open (nm : String) :
    isPlacemarkOpen ("\t<Placemark id=\"img_" ++ nm ++ "\">") = true := by
  have hd : ("\t<Placemark id=\"img_" ++ nm ++ "\">").data
      = "\t<Placemark id=\"img_".data ++ (nm.data ++ "\">".data) := by
    simp [data_append]
  rw [isPlacemarkOpen, hd]
  exact decide_eq_true
    ((show "\t<Placemark".data <+: "\t<Placemark id=\"img_".data by decide).trans
      (List.prefix_append _ _))

lemma ipo_topname (nm : String) :
    isPlacemarkOpen ("\t<name>" ++ nm ++ "</name>") = false := by
  have hd : ("\t<name>" ++ nm ++ "</name>").data
      = "\t<name>".data ++ (nm.data ++ "</name>".data) := by simp [data_append]
  rw [isPlacemarkOpen, hd]
  exact decide_eq_false
    (not_prefix_of_getElem_ne _ _ _ 2 (by decide) (by decide) (by decide))

lemma ipo_name (nm : String) :
    isPlacemarkOpen ("\t\t<name>" ++ nm ++ "</name>") = false := by
  have hd : ("\t\t<name>" ++ nm ++ "</name>").data
      = "\t\t<name>".data ++ (nm.data ++ "</name>".data) := by simp [data_append]
  rw [isPlacemarkOpen, hd]
  exact decide_eq_false
    (not_prefix_of_getElem_ne _ _ _ 1 (by decide) (by decide) (by decide))

lemma ipo_cdata (relS : String) :
    isPlacemarkOpen
      ("\t\t\t<![CDATA[<img style=\"max-width:500px;\" src=\"" ++ relS ++ "\">]]>")
      = false := by
  have hd : ("\t\t\t<![CDATA[<img style=\"max-width:500px;\" src=\"" ++ relS ++ "\">]]>").data
      = "\t\t\t<![CDATA[<img style=\"max-width:500px;\" src=\"".data
        ++ (relS.data ++ "\">]]>".data) := by simp [data_append]
  rw [isPlacemarkOpen, hd]
  exact decide_eq_false
    (not_prefix_of_getElem_ne _ _ _ 1 (by decide) (by decide) (by decide))

lemma ipo_when (ts : String) :
    isPlacemarkOpen ("\t\t\t<when>" ++ ts ++ "</when>") = false := by
  have hd : ("\t\t\t<when>" ++ ts ++ "</when>").data
      = "\t\t\t<when>".data ++ (ts.data ++ "</when>".data) := by simp [data_append]
  rw [isPlacemarkOpen, hd]
  exact decide_eq_false
    (not_prefix_of_getElem_ne _ _ _ 1 (by decide) (by decide) (by decide))

lemma ipo_href (relS : String) :
    isPlacemarkOpen ("\t\t\t\t\t<href>" ++ relS ++ "</href>") = false := by
  have hd : ("\t\t\t\t\t<href>" ++ relS ++ "</href>").data
      = "\t\t\t\t\t<href>".data ++ (relS.data ++ "</href>".data) := by simp [data_append]
  rw [isPlacemarkOpen, hd]
  exact decide_eq_false
    (not_prefix_of_getElem_ne _ _ _ 1 (by decide) (by decide) (by decide))

lemma ipo_coords (lonS latS elevS : String) :
    isPlacemarkOpen ("\t\t\t<coordinates>" ++ lonS ++ "," ++ latS ++ "," ++ elevS
      ++ "</coordinates>") = false := by
  have hd : ("\t\t\t<coordinates>" ++ lonS ++ "," ++ latS ++ "," ++ elevS
        ++ "</coordinates>").data
      = "\t\t\t<coordinates>".data ++ (lonS.data ++ ",".data ++ latS.data ++ ",".data
        ++ elevS.data ++ "</coordinates>".data) := by simp [data_append]
  rw [isPlacemarkOpen, hd]
  exact decide_eq_false
    (not_prefix_of_getElem_ne _ _ _ 1 (by decide) (by decide) (by decide))

lemma placemark_block {outParent : FsPath} {r : PointRecord} {block : List String}
    (h : placemarkLines outParent r = some block) :
    block.countP isPlacemarkOpen = 1 ∧
    "\t\t\t<gx:altitudeMode>clampToGround</gx:altitudeMode>" ∈ block ∧
    ("\t\t\t<coordinates>" ++ qstr r.lon ++ "," ++ qstr r.lat ++ "," ++ qstr r.elev
      ++ "</coordinates>") ∈ block ∧
    ("\t\t\t<when>" ++ r.timestamp ++ "</when>") ∈ block := by
  rcases hrel : FsPath.relative_to r.path outParent with _ | rel
  · rw [placemarkLines, hrel] at h; cases h
  · rw [placemarkLines, hrel, Option.map_some'] at h
    cases h
    refine ⟨?_, ?_, ?_, ?_⟩
    · simp [descriptionLines, whenLines, pointLines, List.countP_cons, List.countP_append,
        ipo_open, ipo_name, ipo_cdata, ipo_when, ipo_href, ipo_coords]
      decide
    · simp [descriptionLines, whenLines, pointLines]
    · simp [descriptionLines, whenLines, pointLines]
    · simp [descriptionLines, whenLines, pointLines]

lemma mapOption_countP_flatten {outParent : FsPath} :
    ∀ (info : List PointRecord) (blocks : List (List String)),
      mapOption (placemarkLines outParent) info = some blocks →
      blocks.flatten.countP isPlacemarkOpen = info.length := by
  intro info
  induction info with
  | nil =>
    intro blocks h
    cases h
    rfl
  | cons r rs ih =>
    intro blocks h
    rcases hb : placemarkLines outParent r with _ | b
    · rw [mapOption, hb] at h; cases h
    · rcases hbs : mapOption (placemarkLines outParent) rs with _ | bs
      · rw [mapOption, hb, hbs] at h; cases h
      · rw [mapOption, hb, hbs] at h
        cases h
        simp [List.countP_append, (placemark_block hb).1, ih bs hbs, Nat.add_comm]

lemma mapOption_mem {α β : Type} {f : α → Option β} :
    ∀ {l : List α} {bl : List β}, mapOption f l = some bl →
      ∀ a ∈ l, ∃ b ∈ bl, f a = some b := by
  intro l
  induction l with
  | nil => intro bl _ a ha; cases ha
  | cons x xs ih =>
    intro bl h a ha
    rcases hx : f x with _ | b
    · rw [mapOption, hx] at h; cases h
    · rcases hxs : mapOption f xs with _ | bs
      · rw [mapOption, hx, hxs] at h; cases h
      · rw [mapOption, hx, hxs] at h
        cases h
        rcases List.mem_cons.mp ha with rfl | ha'
        · exact ⟨b, List.mem_cons_self _ _, hx⟩
        · obtain ⟨b', hb', hfb'⟩ := ih hxs a ha'
          exact ⟨b', List.mem_cons_of_mem _ hb', hfb'⟩

lemma kmlLines_eq {outFile : FsPath} {info : List PointRecord} {lines : List String}
    (h : kmlLines outFile info = some lines) :
    ∃ blocks, mapOption (placemarkLines outFile.parent) info = some blocks ∧
      lines = kmlHeaderLines ++ [("\t<name>" ++ outFile.name ++ "</name>")]
        ++ blocks.flatten ++ kmlFooterLines := by
  rcases hb : mapOption (placemarkLines outFile.parent) info with _ | blocks
  · rw [kmlLines, hb] at h; cases h
  · rw [kmlLines, hb, Option.map_some'] at h
    exact ⟨blocks, rfl, (Option.some.inj h).symm⟩

/-- Claim C4: whenever `write_kml` succeeds, the emitted document has
exactly one `<Placemark>`-opening line per record and no more, and each
record contributes a `<Point>` with `clampToGround` altitude mode and a
coordinates line ordered `lon,lat,elev`. -/
theorem C4_write_kml (outFile : FsPath) (info : List PointRecord) (lines : List String)
    (h : kmlLines outFile info = some lines) :
    lines.countP isPlacemarkOpen = info.length ∧
    ∀ r ∈ info,
      "\t\t\t<gx:altitudeMode>clampToGround</gx:altitudeMode>" ∈ lines ∧
      ("\t\t\t<coordinates>" ++ qstr r.lon ++ "," ++ qstr r.lat ++ "," ++ qstr r.elev
        ++ "</coordinates>") ∈ lines := by
  obtain ⟨blocks, hb, rfl⟩ := kmlLines_eq h
  constructor
  · have h1 : kmlHeaderLines.countP isPlacemarkOpen = 0 := by decide
    have h2 : kmlFooterLines.countP isPlacemarkOpen = 0 := by decide
    simp [List.countP_append, List.countP_cons, h1, h2, ipo_topname,
      mapOption_countP_flatten info blocks hb]
  · intro r hr
    obtain ⟨block, hbm, hpl⟩ := mapOption_mem hb r hr
    obtain ⟨-, hclamp, hcoords, -⟩ := placemark_block hpl
    constructor
    · simp only [List.mem_append]
      exact Or.inl (Or.inr (List.mem_flatten.mpr ⟨block, hbm, hclamp⟩))
    · simp only [List.mem_append]
      exact Or.inl (Or.inr (List.mem_flatten.mpr ⟨block, hbm, hcoords⟩))

/-- Witness for C4 at a concrete one-record list whose image sits next to
the KML destination. -/
theorem C4_write_kml_witness :
    ((kmlLines ["", "d", "x.kml"] [recW]).getD []).countP isPlacemarkOpen
      = [recW].length :=
  (C4_write_kml ["", "d", "x.kml"] [recW]
    ((kmlLines ["", "d", "x.kml"] [recW]).getD []) rfl).1

/-- Claim C10: an image with a GPS block but no EXIF DateTime field yields
a record whose timestamp is the literal string `"None"` (Python
`str(None)`), and that literal reaches the KML `<when>` element, the
GeoJSON `timestamp` property and the CSV timestamp field verbatim. -/
theorem C10_missing_datetime (img : Image) (hg : img.gpsIfd.isEmpty = false)
    (hd : img.dateTime = none) :
    ∃ r : PointRecord, buildRecords [img] = [r] ∧ r.timestamp = "None" ∧
      (∀ out lines, kmlLines out [r] = some lines →
        ("\t\t\t<when>" ++ "None" ++ "</when>") ∈ lines) ∧
      (∃ pr : Json, (featureJson r).lookup "properties" = some pr ∧
        pr.lookup "timestamp" = some (.str "None")) ∧
      (∀ cwd, (rowFields cwd r)[4]? = some "None") := by
  have hgeo : get_geo_exif img = some ⟨img.gpsIfd, img.dateTime⟩ := by
    simp [get_geo_exif, hg]
  refine ⟨mkRecord img ⟨img.gpsIfd, img.dateTime⟩, ?_, ?_, ?_, ?_, ?_⟩
  · simp [buildRecords, get_info, hgeo]
  · simp [mkRecord, hd, pyStr]
  · intro out lines h
    obtain ⟨blocks, hb, rfl⟩ := kmlLines_eq h
    obtain ⟨block, hbm, hpl⟩ :=
      mapOption_mem hb _ (List.mem_singleton.mpr rfl)
    obtain ⟨-, -, -, hwhen⟩ := placemark_block hpl
    have hts : (mkRecord img ⟨img.gpsIfd, img.dateTime⟩).timestamp = "None" := by
      simp [mkRecord, hd, pyStr]
    rw [hts] at hwhen
    simp only [List.mem_append]
    exact Or.inl (Or.inr (List.mem_flatten.mpr ⟨block, hbm, hwhen⟩))
  · refine ⟨_, rfl, ?_⟩
    have hts : (mkRecord img ⟨img.gpsIfd, img.dateTime⟩).timestamp = "None" := by
      simp [mkRecord, hd, pyStr]
    simp [featureJson, Json.lookup, Json.lookup.lookupList, hts]
  · intro cwd
    have hts : (mkRecord img ⟨img.gpsIfd, img.dateTime⟩).timestamp = "None" := by
      simp [mkRecord, hd, pyStr]
    simp [rowFields, hts]

/-- Witness for C10 at a concrete image with GPS tags and no DateTime. -/
theorem C10_missing_datetime_witness :
    ∃ r : PointRecord, buildRecords [imgNoDate] = [r] ∧ r.timestamp = "None" ∧
      (∀ cwd, (rowFields cwd r)[4]? = some "None") := by
  obtain ⟨r, h1, h2, -, -, h5⟩ := C10_missing_datetime imgNoDate rfl rfl
  exact ⟨r, h1, h2, h5⟩

end GeoGrab
